import Mathlib

/-!
Verification of the status-code-to-exception translator of `cfd_python`
(`src/cfd_python/_exceptions.py`).

The module defines a hierarchy of exception classes rooted at `CFDError`,
a table `_STATUS_TO_EXCEPTION` from negative status codes to classes, and a
function `raise_for_status(status_code, context)` that returns for
non-negative codes and otherwise raises the mapped class with a message
resolved from the native layer.

Embedding conventions:
* Python classes become the inductive `ExcClass`; `directBases` records each
  class declaration's base list, and `isInstanceOf` is the reflexive-transitive
  closure used by `isinstance` / `except` clauses.
* A raised exception value becomes the record `CFDErrorValue`; `mkCFDError`
  embeds `CFDError.__init__`, which stores `status_code` and `message` and
  passes the display string to `Exception.__init__` (field `args0`).
* The native layer consulted inside `raise_for_status` becomes `NativeEnv`:
  `available = false` models the `from . import ...` statement raising
  `ImportError` (extension not built); `get_last_error = none` and
  `get_error_string code = none` model the respective call raising one of the
  `ImportError`/`AttributeError` failures that the `except` clause catches,
  which per the package loader are the failure modes of an unavailable
  interop layer.
* Raising is modelled by returning `some` error value; returning normally is
  `none`.
-/

/-- Python exception classes appearing in `_exceptions.py`: the seven CFD
classes plus the host-language standard classes they inherit from. `PyException`
stands for the built-in `Exception`; `PyIOError` for `IOError` (alias of
`OSError`); `PyNotImplementedError` collapses the `NotImplementedError`
chain to its catchable identity. -/
inductive ExcClass where
  | PyException
  | PyMemoryError
  | PyValueError
  | PyIOError
  | PyNotImplementedError
  | CFDError
  | CFDMemoryError
  | CFDInvalidError
  | CFDIOError
  | CFDUnsupportedError
  | CFDDivergedError
  | CFDMaxIterError
deriving DecidableEq, Repr

/-- Direct base classes, read off the `class` statements of
`_exceptions.py` (`class CFDMemoryError(CFDError, MemoryError)` etc.);
the host standard classes all descend from `Exception`. -/
def directBases : ExcClass → List ExcClass
  | .PyException => []
  | .PyMemoryError => [.PyException]
  | .PyValueError => [.PyException]
  | .PyIOError => [.PyException]
  | .PyNotImplementedError => [.PyException]
  | .CFDError => [.PyException]
  | .CFDMemoryError => [.CFDError, .PyMemoryError]
  | .CFDInvalidError => [.CFDError, .PyValueError]
  | .CFDIOError => [.CFDError, .PyIOError]
  | .CFDUnsupportedError => [.CFDError, .PyNotImplementedError]
  | .CFDDivergedError => [.CFDError]
  | .CFDMaxIterError => [.CFDError]

/-- All ancestors of a class (itself included), with enough fuel to exhaust
the fixed hierarchy (its depth is at most 2). -/
def ancestorsAux : Nat → ExcClass → List ExcClass
  | 0, c => [c]
  | n + 1, c => c :: (directBases c).flatMap (ancestorsAux n)

/-- Python `isinstance` on this hierarchy: an instance of `c` is catchable
as `d` iff `d` is `c` or a (transitive) base of `c`. -/
def isInstanceOf (c d : ExcClass) : Bool :=
  (ancestorsAux 4 c).contains d

/-- A constructed CFD exception object: its (dynamic) class, the two
attributes set by `CFDError.__init__`, and the single argument passed to
`Exception.__init__` (what `str(e)` displays). -/
structure CFDErrorValue where
  cls : ExcClass
  status_code : Int
  message : String
  args0 : String
deriving DecidableEq, Repr

/-- Embeds `exception_class(message, status_code)` where `CFDError.__init__`
stores both attributes and passes the interpolated display string
`message ++ " (status=" ++ str status_code ++ ")"` to `super().__init__`. -/
def mkCFDError (cls : ExcClass) (message : String) (status_code : Int) : CFDErrorValue :=
  { cls := cls
    status_code := status_code
    message := message
    args0 := message ++ (" (status=" ++ toString status_code ++ ")") }

/-- Embeds direct construction with the default status code,
`CFDError.__init__(self, message, status_code=-1)`, as exercised when a
caller writes e.g. `CFDMaxIterError("msg")`. -/
def mkCFDErrorDefault (cls : ExcClass) (message : String) : CFDErrorValue :=
  mkCFDError cls message (-1)

/-- The dictionary `_STATUS_TO_EXCEPTION` of `_exceptions.py`, as the lookup
function `dict.get` performs on it. -/
def STATUS_TO_EXCEPTION (code : Int) : Option ExcClass :=
  if code = -1 then some .CFDError
  else if code = -2 then some .CFDMemoryError
  else if code = -3 then some .CFDInvalidError
  else if code = -4 then some .CFDIOError
  else if code = -5 then some .CFDUnsupportedError
  else if code = -6 then some .CFDDivergedError
  else if code = -7 then some .CFDMaxIterError
  else none

/-- State of the native interop layer as seen by `raise_for_status`:
whether `from . import get_error_string, get_last_error` succeeds, and the
outcome of each native call (`none` models the call failing with one of the
caught `ImportError`/`AttributeError` exceptions). -/
structure NativeEnv where
  available : Bool
  get_last_error : Option String
  get_error_string : Int → Option String

/-- The `try`/`except` block of `raise_for_status` (message resolution):
use the non-empty last error if the native layer yields one, else
`get_error_string(status_code)`, and on any caught interop failure fall back
to the synthesized code-only message. -/
def resolveErrorMessage (env : NativeEnv) (status_code : Int) : String :=
  let tryResult : Option String :=
    if env.available then
      match env.get_last_error with
      | some s => if s = "" then env.get_error_string status_code else some s
      | none => none
    else none
  match tryResult with
  | some m => m
  | none => "CFD error code " ++ toString status_code

/-- Embeds `raise_for_status(status_code, context)`: return (`none`) on
`status_code >= 0`, otherwise resolve the message, prepend a non-empty
context with `": "`, look the code up in the table defaulting to `CFDError`,
and raise (`some`) the constructed exception. -/
def raise_for_status (env : NativeEnv) (status_code : Int) (context : String) :
    Option CFDErrorValue :=
  if status_code ≥ 0 then
    none
  else
    let error_msg := resolveErrorMessage env status_code
    let error_msg := if context ≠ "" then context ++ ": " ++ error_msg else error_msg
    let exception_class := (STATUS_TO_EXCEPTION status_code).getD .CFDError
    some (mkCFDError exception_class error_msg status_code)

/-- The seven (code, class) rows of the section-3 table of the spec. -/
def specTable : List (Int × ExcClass) :=
  [(-1, .CFDError), (-2, .CFDMemoryError), (-3, .CFDInvalidError), (-4, .CFDIOError),
   (-5, .CFDUnsupportedError), (-6, .CFDDivergedError), (-7, .CFDMaxIterError)]

/-- The seven concrete CFD exception classes. -/
def sevenCFDClasses : List ExcClass :=
  [.CFDError, .CFDMemoryError, .CFDInvalidError, .CFDIOError,
   .CFDUnsupportedError, .CFDDivergedError, .CFDMaxIterError]

/-- A sample native environment with a recorded last error. -/
def envLast : NativeEnv :=
  { available := true
    get_last_error := some "CFL violated"
    get_error_string := fun _ => some "static description" }

/-- A sample native environment whose interop layer is unavailable. -/
def envDown : NativeEnv :=
  { available := false
    get_last_error := none
    get_error_string := fun _ => none }

example : raise_for_status envLast (-6) "" =
    some (mkCFDError .CFDDivergedError "CFL violated" (-6)) := by decide

example : raise_for_status envDown (-42) "ctx" =
    some (mkCFDError .CFDError "ctx: CFD error code -42" (-42)) := by decide

example : raise_for_status envLast 0 "ctx" = none := by decide

/-- C1: for every code in the seven-entry table, `raise_for_status` raises
exactly the class the section-3 table assigns to it, with `status_code`
equal to the input code verbatim, whatever the native state and context;
and the seven classes are pairwise distinct, so the mapping is injective. -/
theorem raise_for_status_table_mapping :
    (∀ (env : NativeEnv) (ctx : String) (code : Int) (cls : ExcClass),
        (code, cls) ∈ specTable →
        ∃ e, raise_for_status env code ctx = some e ∧ e.cls = cls ∧ e.status_code = code)
    ∧ List.Pairwise (· ≠ ·) (specTable.map Prod.snd) := by
  constructor
  · intro env ctx code cls h
    simp only [specTable, List.mem_cons, List.not_mem_nil, or_false, Prod.mk.injEq] at h
    rcases h with ⟨rfl, rfl⟩ | ⟨rfl, rfl⟩ | ⟨rfl, rfl⟩ | ⟨rfl, rfl⟩ |
      ⟨rfl, rfl⟩ | ⟨rfl, rfl⟩ | ⟨rfl, rfl⟩ <;>
      exact ⟨_, rfl, rfl, rfl⟩
  · decide

/-- C1 witness: instantiated at code -7 with a concrete native state. -/
theorem raise_for_status_table_mapping_witness :
    ((-7 : Int), ExcClass.CFDMaxIterError) ∈ specTable ∧
    ∃ e, raise_for_status envLast (-7) "" = some e ∧
      e.cls = ExcClass.CFDMaxIterError ∧ e.status_code = -7 :=
  ⟨by decide, raise_for_status_table_mapping.1 envLast "" (-7) ExcClass.CFDMaxIterError (by decide)⟩

/-- C2: every non-negative code is success: `raise_for_status` returns
normally and raises nothing, for every native state and context. -/
theorem raise_for_status_success :
    ∀ (env : NativeEnv) (ctx : String) (code : Int), 0 ≤ code →
      raise_for_status env code ctx = none := by
  intro env ctx code h
  unfold raise_for_status
  rw [if_pos h]

/-- C2 witness: instantiated at codes 0 and 5 with a concrete native state. -/
theorem raise_for_status_success_witness :
    (0 ≤ (0 : Int) ∧ raise_for_status envLast 0 "" = none) ∧
    (0 ≤ (5 : Int) ∧ raise_for_status envDown 5 "during step" = none) :=
  ⟨⟨by decide, raise_for_status_success envLast "" 0 (by decide)⟩,
   ⟨by decide, raise_for_status_success envDown "during step" 5 (by decide)⟩⟩

/-- C3: every negative code absent from the table raises the generic
`CFDError` class, and the exception still carries the input code itself as
`status_code`, not the Generic row's literal -1. -/
theorem raise_for_status_unmapped_generic :
    ∀ (env : NativeEnv) (ctx : String) (code : Int), code < 0 →
      code ∉ specTable.map Prod.fst →
      ∃ e, raise_for_status env code ctx = some e ∧
        e.cls = ExcClass.CFDError ∧ e.status_code = code := by
  intro env ctx code hneg hmem
  simp only [specTable, List.map_cons, List.map_nil, List.mem_cons,
    List.not_mem_nil, or_false] at hmem
  push_neg at hmem
  obtain ⟨h1, h2, h3, h4, h5, h6, h7⟩ := hmem
  have htab : STATUS_TO_EXCEPTION code = none := by
    simp [STATUS_TO_EXCEPTION, h1, h2, h3, h4, h5, h6, h7]
  have hlt : ¬ code ≥ 0 := by omega
  simp only [raise_for_status, if_neg hlt, htab, Option.getD_none]
  exact ⟨_, rfl, rfl, rfl⟩

/-- C3 witness: instantiated at the unmapped code -42. -/
theorem raise_for_status_unmapped_generic_witness :
    ((-42 : Int) < 0 ∧ (-42 : Int) ∉ specTable.map Prod.fst) ∧
    ∃ e, raise_for_status envLast (-42) "" = some e ∧
      e.cls = ExcClass.CFDError ∧ e.status_code = -42 :=
  ⟨⟨by decide, by decide⟩,
   raise_for_status_unmapped_generic envLast "" (-42) (by decide) (by decide)⟩

/-- C4: for every negative code the raised message follows the three-tier
precedence: a non-empty native last error is used as-is; else the static
`get_error_string(code)` text; else the synthesized message carrying the
bare numeric code. -/
theorem raise_for_status_message_precedence :
    ∀ (env : NativeEnv) (code : Int), code < 0 →
      (∀ s, env.available = true → env.get_last_error = some s → s ≠ "" →
        (raise_for_status env code "").map CFDErrorValue.message = some s) ∧
      (∀ t, env.available = true → env.get_last_error = some "" →
        env.get_error_string code = some t →
        (raise_for_status env code "").map CFDErrorValue.message = some t) ∧
      ((env.available = false ∨ env.get_last_error = none ∨
          (env.get_last_error = some "" ∧ env.get_error_string code = none)) →
        (raise_for_status env code "").map CFDErrorValue.message =
          some ("CFD error code " ++ toString code)) := by
  intro env code hneg
  have hlt : ¬ code ≥ 0 := by omega
  refine ⟨?_, ?_, ?_⟩
  · intro s ha hl hs
    simp [raise_for_status, resolveErrorMessage, mkCFDError, hlt, ha, hl, hs]
  · intro t ha hl ht
    simp [raise_for_status, resolveErrorMessage, mkCFDError, hlt, ha, hl, ht]
  · intro h
    rcases h with h | h | ⟨h1, h2⟩
    · simp [raise_for_status, resolveErrorMessage, mkCFDError, hlt, h]
    · simp [raise_for_status, resolveErrorMessage, mkCFDError, hlt, h]
    · simp [raise_for_status, resolveErrorMessage, mkCFDError, hlt, h1, h2]

/-- C4 witness: tier one, a recorded non-empty last error is reported
verbatim. -/
theorem raise_for_status_message_precedence_witness :
    ((-6 : Int) < 0 ∧ envLast.available = true ∧
      envLast.get_last_error = some "CFL violated" ∧ "CFL violated" ≠ "") ∧
    (raise_for_status envLast (-6) "").map CFDErrorValue.message = some "CFL violated" :=
  ⟨⟨by decide, rfl, rfl, by decide⟩,
   (raise_for_status_message_precedence envLast (-6) (by decide)).1
     "CFL violated" rfl rfl (by decide)⟩

/-- C5: for every negative code, a failing native last-error query (interop
unavailable, import or attribute failure) is caught locally: the call still
raises the mapped exception, with the code-only fallback message, and never
propagates the secondary failure. -/
theorem raise_for_status_interop_failure_fallback :
    ∀ (env : NativeEnv) (code : Int) (ctx : String), code < 0 →
      env.available = false ∨ env.get_last_error = none →
      ∃ e, raise_for_status env code ctx = some e ∧
        e.message = (if ctx ≠ "" then ctx ++ ": " ++ ("CFD error code " ++ toString code)
                     else "CFD error code " ++ toString code) := by
  intro env code ctx hneg h
  have hlt : ¬ code ≥ 0 := by omega
  rcases h with h | h
  · simp only [raise_for_status, resolveErrorMessage, mkCFDError, if_neg hlt, h,
      Bool.false_eq_true, if_false]
    exact ⟨_, rfl, rfl⟩
  · by_cases ha : env.available
    · simp only [raise_for_status, resolveErrorMessage, mkCFDError, if_neg hlt, h, ha, if_true]
      exact ⟨_, rfl, rfl⟩
    · simp only [raise_for_status, resolveErrorMessage, mkCFDError, if_neg hlt, ha, if_false]
      exact ⟨_, rfl, rfl⟩

/-- C5 witness: interop layer unavailable, code -3, context supplied. -/
theorem raise_for_status_interop_failure_fallback_witness :
    ((-3 : Int) < 0 ∧ envDown.available = false) ∧
    ∃ e, raise_for_status envDown (-3) "boom" = some e ∧
      e.message = (if "boom" ≠ "" then "boom" ++ ": " ++ ("CFD error code " ++ toString (-3 : Int))
                   else "CFD error code " ++ toString (-3 : Int)) :=
  ⟨⟨by decide, rfl⟩,
   raise_for_status_interop_failure_fallback envDown (-3) "boom" (by decide) (Or.inl rfl)⟩

/-- C6: for every negative code, a non-empty context is prepended to the
resolved message with the separator `": "` (so the context precedes the
native-derived message), and an empty context adds no prefix. -/
theorem raise_for_status_context_prepend :
    ∀ (env : NativeEnv) (code : Int) (ctx : String), code < 0 →
      (ctx ≠ "" →
        (raise_for_status env code ctx).map CFDErrorValue.message =
          some (ctx ++ ": " ++ resolveErrorMessage env code)) ∧
      (raise_for_status env code "").map CFDErrorValue.message =
        some (resolveErrorMessage env code) := by
  intro env code ctx hneg
  have hlt : ¬ code ≥ 0 := by omega
  constructor
  · intro hctx
    simp [raise_for_status, mkCFDError, hlt, hctx]
  · simp [raise_for_status, mkCFDError, hlt]

/-- C6 witness: code -2 with context string, as in the spec scenario. -/
theorem raise_for_status_context_prepend_witness :
    ((-2 : Int) < 0 ∧ "during allocation" ≠ "") ∧
    (raise_for_status envLast (-2) "during allocation").map CFDErrorValue.message =
      some ("during allocation" ++ ": " ++ resolveErrorMessage envLast (-2)) :=
  ⟨⟨by decide, by decide⟩,
   (raise_for_status_context_prepend envLast (-2) "during allocation" (by decide)).1 (by decide)⟩

/-- Names of the native error-API functions that `raise_for_status` could
reach through the interop layer. -/
inductive NativeCall where
  | getLastErrorCall
  | getErrorStringCall (code : Int)
  | clearErrorCall
deriving DecidableEq, Repr

/-- Whether a native error-API call mutates native-side error state.
Modelled from the spec: section 6 gives the collaborator contract of the
native layer, whose code is not in this repository — `get_last_error` and
`get_error_string` are queries, while `clear_error` resets the last-error
slot. -/
def NativeCall.mutates : NativeCall → Bool
  | .clearErrorCall => true
  | _ => false

/-- The sequence of native-API calls the body of `raise_for_status`
performs, read off its source: nothing on success or when the import fails,
`get_last_error()` once the import succeeds, and `get_error_string(code)`
only when the last error came back empty. -/
def raise_for_statusNativeCalls (env : NativeEnv) (status_code : Int) (_context : String) :
    List NativeCall :=
  if status_code ≥ 0 then []
  else if env.available then
    match env.get_last_error with
    | some s =>
      if s = "" then [.getLastErrorCall, .getErrorStringCall status_code]
      else [.getLastErrorCall]
    | none => [.getLastErrorCall]
  else []

/-- C7: for every input, `raise_for_status` never calls `clear_error` and
performs no mutating native call at all, so the native last-error and
status slots are unchanged by the translator. -/
theorem raise_for_status_no_native_mutation :
    ∀ (env : NativeEnv) (code : Int) (ctx : String),
      (raise_for_statusNativeCalls env code ctx).contains NativeCall.clearErrorCall = false ∧
      (raise_for_statusNativeCalls env code ctx).all (fun c => !c.mutates) = true := by
  intro env code ctx
  unfold raise_for_statusNativeCalls
  by_cases h0 : code ≥ 0
  · simp [h0]
  · by_cases ha : env.available
    · cases hl : env.get_last_error with
      | some s =>
        by_cases hs : s = "" <;>
          simp [h0, ha, hl, hs, NativeCall.mutates, List.contains, List.all]
      | none => simp [h0, ha, hl, NativeCall.mutates, List.contains, List.all]
    · simp [h0, ha]

/-- C8: the raised class and status code are deterministic in the input
code: whatever the native state and context of each call, two calls with the
same code agree on whether they raise, on the exception class, and on the
`status_code` attribute — only message content can depend on native state. -/
theorem raise_for_status_deterministic_kind_code :
    ∀ (env1 env2 : NativeEnv) (ctx1 ctx2 : String) (code : Int),
      (raise_for_status env1 code ctx1).map CFDErrorValue.cls =
        (raise_for_status env2 code ctx2).map CFDErrorValue.cls ∧
      (raise_for_status env1 code ctx1).map CFDErrorValue.status_code =
        (raise_for_status env2 code ctx2).map CFDErrorValue.status_code ∧
      (raise_for_status env1 code ctx1).isSome =
        (raise_for_status env2 code ctx2).isSome := by
  intro env1 env2 ctx1 ctx2 code
  by_cases h : code ≥ 0 <;>
    simp [raise_for_status, mkCFDError, h]

/-- C9: each specialized class is catchable both as the generic `CFDError`
and as its host-language category (`MemoryError`, `ValueError`, `IOError`,
`NotImplementedError` respectively), while `CFDDivergedError` and
`CFDMaxIterError` are `CFDError`s with no extra host category. -/
theorem cfd_exception_catchability :
    (isInstanceOf .CFDMemoryError .CFDError = true ∧
      isInstanceOf .CFDMemoryError .PyMemoryError = true) ∧
    (isInstanceOf .CFDInvalidError .CFDError = true ∧
      isInstanceOf .CFDInvalidError .PyValueError = true) ∧
    (isInstanceOf .CFDIOError .CFDError = true ∧
      isInstanceOf .CFDIOError .PyIOError = true) ∧
    (isInstanceOf .CFDUnsupportedError .CFDError = true ∧
      isInstanceOf .CFDUnsupportedError .PyNotImplementedError = true) ∧
    (isInstanceOf .CFDDivergedError .CFDError = true ∧
      isInstanceOf .CFDDivergedError .PyMemoryError = false ∧
      isInstanceOf .CFDDivergedError .PyValueError = false ∧
      isInstanceOf .CFDDivergedError .PyIOError = false ∧
      isInstanceOf .CFDDivergedError .PyNotImplementedError = false) ∧
    (isInstanceOf .CFDMaxIterError .CFDError = true ∧
      isInstanceOf .CFDMaxIterError .PyMemoryError = false ∧
      isInstanceOf .CFDMaxIterError .PyValueError = false ∧
      isInstanceOf .CFDMaxIterError .PyIOError = false ∧
      isInstanceOf .CFDMaxIterError .PyNotImplementedError = false) := by
  decide

/-- C10: constructing any of the seven classes with only a message defaults
`status_code` to -1 (also for `CFDMaxIterError`, whose table code is -7),
and the display string passed to the base `Exception` is always the message
followed by the parenthesized status. -/
theorem cfd_error_default_status_and_display :
    ∀ (cls : ExcClass) (msg : String), cls ∈ sevenCFDClasses →
      (mkCFDErrorDefault cls msg).status_code = -1 ∧
      (mkCFDErrorDefault cls msg).args0 = msg ++ " (status=-1)" ∧
      ∀ (sc : Int), (mkCFDError cls msg sc).args0 =
        msg ++ " (status=" ++ toString sc ++ ")" := by
  intro cls msg hmem
  refine ⟨rfl, rfl, ?_⟩
  intro sc
  show msg ++ (" (status=" ++ toString sc ++ ")") = msg ++ " (status=" ++ toString sc ++ ")"
  simp [String.append_assoc]

/-- C10 witness: a directly constructed `CFDMaxIterError` carries
`status_code` -1, not -7, and displays the parenthesized status. -/
theorem cfd_error_default_status_and_display_witness :
    ExcClass.CFDMaxIterError ∈ sevenCFDClasses ∧
    (mkCFDErrorDefault ExcClass.CFDMaxIterError "max iter").status_code = -1 ∧
    (mkCFDErrorDefault ExcClass.CFDMaxIterError "max iter").args0 = "max iter" ++ " (status=-1)" ∧
    (mkCFDError ExcClass.CFDMaxIterError "max iter" (-7)).args0 =
      "max iter" ++ " (status=" ++ toString (-7 : Int) ++ ")" :=
  ⟨by decide,
   (cfd_error_default_status_and_display ExcClass.CFDMaxIterError "max iter" (by decide)).1,
   (cfd_error_default_status_and_display ExcClass.CFDMaxIterError "max iter" (by decide)).2.1,
   (cfd_error_default_status_and_display ExcClass.CFDMaxIterError "max iter" (by decide)).2.2 (-7)⟩
